import Mathlib

set_option maxRecDepth 100000

/-!
Verification of the layout and connection-routing engine of the
Easy-UML-Class-Diagram-Generator repository.

The Python sources (src/src/diagramDraw.py, src/src/connection.py,
src/src/app.py, src/api/index.py) are shallowly embedded below.  Pure
computations become Lean functions; PIL drawing calls become explicit
draw-command lists; the module-global note list becomes explicit state
passing; Python exceptions become Except values.  Pixel colours and line
widths, and the rasterisation of dash segments and polygon fills (which
happen in floating point inside PIL), are abstracted away: a draw command
records the integer geometry that the source computes before handing off to
PIL.  Fonts are abstracted as arbitrary per-line width/height measures,
exactly the two quantities the source reads off font.getbbox.
-/

namespace UMLGen

/-! ## String helpers mirroring the Python string operations used -/

/-- Python text.split over a newline separator: split a character list at
newline characters, keeping empty pieces (so the result is never empty). -/
def splitCharLines : List Char → List Char → List (List Char)
  | [], acc => [acc.reverse]
  | c :: rest, acc =>
    if c = '\n' then acc.reverse :: splitCharLines rest []
    else splitCharLines rest (c :: acc)

/-- Python text.split over a newline separator, on a string. -/
def splitLines (s : String) : List String :=
  (splitCharLines s.data []).map (fun l => String.mk l)

/-- Python falsiness of line.strip(): the line contains only whitespace. -/
def isBlank (s : String) : Bool :=
  s.data.all Char.isWhitespace

/-- Python s.strip(): drop leading and trailing whitespace. -/
def stripStr (s : String) : String :=
  String.mk (((s.data.dropWhile Char.isWhitespace).reverse.dropWhile Char.isWhitespace).reverse)

/-- Python sep.join(parts). -/
def joinSep (sep : String) : List String → String
  | [] => ""
  | [s] => s
  | s :: rest => s ++ sep ++ joinSep sep rest

/-- Python dict lookup (keys are unique in this representation). -/
def dictGet {κ α : Type} [DecidableEq κ] : List (κ × α) → κ → Option α
  | [], _ => none
  | (k, v) :: rest, q => if k = q then some v else dictGet rest q

/-- Python dict assignment d[k] = v: replace in place or append. -/
def dictInsert {κ α : Type} [DecidableEq κ] : List (κ × α) → κ → α → List (κ × α)
  | [], k, v => [(k, v)]
  | (k', v') :: rest, k, v =>
    if k' = k then (k, v) :: rest else (k', v') :: dictInsert rest k v

/-! ## diagramDraw.py constants and text metrics -/

def PADDING_X : Nat := 10
def PADDING_Y : Nat := 5
def MAX_BOX_WIDTH : Nat := 250

/-- Abstraction of a PIL font: per-line rendered width and height, the two
quantities the source reads from font.getbbox(line). -/
structure Font where
  lineWidth : String → Nat
  lineHeight : String → Nat

/-- The max over font.getbbox widths of the lines of the text
(diagramDraw.calculateBoxWidth, line 27). -/
def maxLineWidth (text : String) (font : Font) : Nat :=
  ((splitLines text).map font.lineWidth).foldl max 0

/-- Sum of font.getbbox heights of the lines of the text
(diagramDraw.calculateBoxHeight, line 33). -/
def sumLineHeights (text : String) (font : Font) : Nat :=
  ((splitLines text).map font.lineHeight).foldl (· + ·) 0

/-- diagramDraw.calculateBoxWidth (lines 25-29). -/
def calculateBoxWidth (text : String) (font : Font) : Nat :=
  min (maxLineWidth text font + PADDING_X * 2) MAX_BOX_WIDTH

/-- diagramDraw.calculateBoxHeight (lines 31-34). -/
def calculateBoxHeight (text : String) (font : Font) : Nat :=
  sumLineHeights text font + PADDING_Y * 2

/-! ## diagramDraw.mergeBoxes (lines 124-194) -/

/-- Drawing primitives issued while painting one merged class box. -/
inductive BoxCmd
  | border (w h : Nat)
  | textAt (x : Int) (y : Nat) (s : String)
  | hlineAt (y w : Nat)
deriving DecidableEq

def BoxCmd.isHline : BoxCmd → Bool
  | .hlineAt _ _ => true
  | _ => false

/-- Name-section text, centered horizontally (mergeBoxes lines 153-161). -/
def nameCmds (font : Font) (maxWidth : Nat) : List String → Nat → List BoxCmd
  | [], _ => []
  | line :: rest, y =>
    BoxCmd.textAt (((maxWidth : Int) - (font.lineWidth line : Int)).fdiv 2) y line
      :: nameCmds font maxWidth rest (y + font.lineHeight line)

/-- Attribute/operation text, left aligned, blank lines skipped without
advancing the offset (mergeBoxes lines 167-176 and 182-191). -/
def leftCmds (font : Font) : List String → Nat → List BoxCmd
  | [], _ => []
  | line :: rest, y =>
    if isBlank line then leftCmds font rest y
    else BoxCmd.textAt (PADDING_X : Int) y line :: leftCmds font rest (y + font.lineHeight line)

structure MergedBox where
  width : Nat
  height : Nat
  cmds : List BoxCmd
deriving DecidableEq

/-- diagramDraw.mergeBoxes: compute the three section sizes (an empty
attributes/operations string falls back to the name section's width and a
20px height), take the max width and the stacked height, draw border, texts
and the two separator lines.  Outline colour/width are abstracted away. -/
def mergeBoxes (name attributes operations : String) (font : Font) : MergedBox :=
  let name_width := calculateBoxWidth name font
  let name_height := calculateBoxHeight name font
  let attr_width := if attributes = "" then name_width else calculateBoxWidth attributes font
  let attr_height := if attributes = "" then 20 else calculateBoxHeight attributes font
  let ops_width := if operations = "" then name_width else calculateBoxWidth operations font
  let ops_height := if operations = "" then 20 else calculateBoxHeight operations font
  let max_width := max name_width (max attr_width ops_width)
  let total_height := name_height + attr_height + ops_height
  let cmds :=
    [BoxCmd.border max_width total_height]
      ++ nameCmds font max_width (splitLines name) PADDING_Y
      ++ [BoxCmd.hlineAt name_height max_width]
      ++ (if attributes = "" then []
          else leftCmds font (splitLines attributes) (name_height + PADDING_Y))
      ++ [BoxCmd.hlineAt (name_height + attr_height) max_width]
      ++ (if operations = "" then []
          else leftCmds font (splitLines operations) (name_height + attr_height + PADDING_Y))
  ⟨max_width, total_height, cmds⟩

/-! ## connection.py: ConnectionManager._get_best_connection_point (lines 108-134) -/

inductive Side
  | top
  | bottom
  | left
  | right
deriving DecidableEq

structure ConnPoint where
  x : Int
  y : Int
  side : Side
deriving DecidableEq

/-- The fixed outward clearance (connection.py line 120). -/
def arrowOffset : Int := 15

/-- connection.py _get_best_connection_point: pick the box side facing the
target and return the attachment point offset outward by arrowOffset.
Python floor division // becomes Int.fdiv. -/
def getBestConnectionPoint (x y w h tx ty : Int) : ConnPoint :=
  let center_x := x + w.fdiv 2
  let center_y := y + h.fdiv 2
  let dx := tx - center_x
  let dy := ty - center_y
  if |dx| > |dy| then
    if dx > 0 then ⟨x + w + arrowOffset, center_y, Side.right⟩
    else ⟨x - arrowOffset, center_y, Side.left⟩
  else
    if dy > 0 then ⟨center_x, y + h + arrowOffset, Side.bottom⟩
    else ⟨center_x, y - arrowOffset, Side.top⟩

/-! ## diagramDraw.py: connector lines and glyphs (lines 318-520)

The glyph routines all begin by computing length = sqrt(dx^2 + dy^2) and
return without drawing when length == 0; otherwise they divide by length
and emit a polygon.  The squared length is integral, so the guard is
embedded exactly; the float polygon geometry behind a passed guard is
abstracted into a single command recording the glyph kind and the tip
coordinates the source uses. -/

inductive Glyph
  | arrowHead
  | diamond (filled : Bool)
  | triangle (filled : Bool)
deriving DecidableEq

inductive DrawCmd
  | solidLine (x1 y1 x2 y2 : Int)
  | dashedLine (dash gap : Nat) (x1 y1 x2 y2 : Int)
  | glyphAt (g : Glyph) (x y : Int)
  | genTriangle (x y : Int)
deriving DecidableEq

def DrawCmd.isDashed : DrawCmd → Bool
  | .dashedLine _ _ _ _ _ _ => true
  | _ => false

def DrawCmd.isGlyph : DrawCmd → Bool
  | .glyphAt _ _ _ => true
  | _ => false

/-- Squared length of the direction vector; the source's guard
`length == 0` holds exactly when this is zero. -/
def len2 (dx dy : Int) : Int := dx * dx + dy * dy

/-- diagramDraw.draw_dashed_line (lines 366-398): no-op for a zero-length
segment, otherwise dashes of fixed 5px length with 3px gaps along the
segment (segment rasterisation abstracted into one command). -/
def draw_dashed_line (x1 y1 x2 y2 : Int) : List DrawCmd :=
  if len2 (x2 - x1) (y2 - y1) = 0 then []
  else [DrawCmd.dashedLine 5 3 x1 y1 x2 y2]

/-- diagramDraw.draw_arrow_head (lines 400-433): no-op for a zero-length
direction, otherwise a filled arrow head with tip at the end point. -/
def draw_arrow_head (sx sy ex ey : Int) : List DrawCmd :=
  if len2 (ex - sx) (ey - sy) = 0 then []
  else [DrawCmd.glyphAt Glyph.arrowHead ex ey]

/-- diagramDraw.draw_diamond (lines 435-477): no-op for a zero-length
direction, otherwise a diamond (white-filled unless filled=True) with tip
at the end point. -/
def draw_diamond (ex ey sx sy : Int) (filled : Bool) : List DrawCmd :=
  if len2 (ex - sx) (ey - sy) = 0 then []
  else [DrawCmd.glyphAt (Glyph.diamond filled) ex ey]

/-- diagramDraw.draw_triangle (lines 479-520): no-op for a zero-length
direction, otherwise a triangle (white-filled unless filled=True) with tip
at the end point. -/
def draw_triangle (sx sy ex ey : Int) (filled : Bool) : List DrawCmd :=
  if len2 (ex - sx) (ey - sy) = 0 then []
  else [DrawCmd.glyphAt (Glyph.triangle filled) ex ey]

/-- drawConnection's main-line choice (diagramDraw lines 341-347): dashed
for realization and dependency, solid otherwise. -/
def connectionLine (sx sy ex ey : Int) (ctype : String) : List DrawCmd :=
  if ctype = "realization" ∨ ctype = "dependency" then draw_dashed_line sx sy ex ey
  else [DrawCmd.solidLine sx sy ex ey]

/-- drawConnection's terminal-glyph dispatch (diagramDraw lines 349-364). -/
def connectionGlyph (sx sy ex ey : Int) (ctype : String) : List DrawCmd :=
  if ctype = "association" then draw_arrow_head sx sy ex ey
  else if ctype = "aggregation" then draw_diamond ex ey sx sy false
  else if ctype = "composition" then draw_diamond ex ey sx sy true
  else if ctype = "inheritance" then draw_triangle sx sy ex ey false
  else if ctype = "inheritance_line" then []
  else if ctype = "realization" then draw_triangle sx sy ex ey false
  else if ctype = "dependency" then draw_arrow_head sx sy ex ey
  else []

/-- diagramDraw.drawConnection (lines 318-364). -/
def drawConnection (sx sy ex ey : Int) (ctype : String) : List DrawCmd :=
  connectionLine sx sy ex ey ctype ++ connectionGlyph sx sy ex ey ctype

/-! ## diagramDraw.draw_proper_generalization (lines 201-276) -/

/-- draw_proper_generalization: trunk from the fixed triangle's base down to
a horizontal bar midway to the nearest child, the bar itself when there are
at least two children, one branch per child, and one white-filled triangle
(draw_fixed_generalization_triangle) whose tip sits at the parent point. -/
def draw_proper_generalization (parent : Int × Int) (children : List (Int × Int)) :
    List DrawCmd :=
  match children with
  | [] => []
  | c :: cs =>
    let px := parent.1
    let py := parent.2
    let minChildY := ((c :: cs).map Prod.snd).foldl min c.2
    let horizontal_y := py + (minChildY - py).fdiv 2
    let leftmost := ((c :: cs).map Prod.fst).foldl min c.1
    let rightmost := ((c :: cs).map Prod.fst).foldl max c.1
    let triangle_bottom_y := py + 12
    [DrawCmd.solidLine px triangle_bottom_y px horizontal_y]
      ++ (if cs = [] then []
          else [DrawCmd.solidLine leftmost horizontal_y rightmost horizontal_y])
      ++ ((c :: cs).map (fun ch =>
            if cs = [] then DrawCmd.solidLine px triangle_bottom_y ch.1 ch.2
            else DrawCmd.solidLine ch.1 horizontal_y ch.1 ch.2))
      ++ [DrawCmd.genTriangle px py]

/-! ## The shared connection-drawing pass of app._draw_connections
(src/src/app.py lines 188-315) and
api._draw_connections_with_robust_modules (src/api/index.py lines 214-343).

The two functions are line-for-line identical in logic.  Their
class_name_to_info dict is keyed by class_data.get('name'), which in the
api variant can be Python None, so info keys are Option String here. -/

structure Rect where
  x : Int
  y : Int
  w : Int
  h : Int
deriving DecidableEq

/-- A raw connection record from the request JSON: only the two fields the
source reads.  none models an absent key. -/
structure RawConn where
  targetClass : Option String
  relationship : Option String
deriving DecidableEq

/-- inheritance_groups[target].append(source): append into the bucket of
this target, creating it at the end on first use (Python dict insertion
order). -/
def bucketAdd : List (String × List (Option String)) → String → Option String →
    List (String × List (Option String))
  | [], t, s => [(t, [s])]
  | (k, v) :: rest, t, s =>
    if k = t then (k, v ++ [s]) :: rest else (k, v) :: bucketAdd rest t s

/-- One connection of one source class (the inner loop of the collection
pass): skip a falsy or unknown target, bucket inheritance connections by
target, keep everything else as a regular connection. -/
def collectOne (info : List (Option String × Rect))
    (acc : List (Option String × String × String) × List (String × List (Option String)))
    (source : Option String) (c : RawConn) :
    List (Option String × String × String) × List (String × List (Option String)) :=
  match c.targetClass with
  | none => acc
  | some t =>
    if t = "" then acc
    else
      match dictGet info (some t) with
      | none => acc
      | some _ =>
        let rel := c.relationship.getD "association"
        if rel = "inheritance" then (acc.1, bucketAdd acc.2 t source)
        else (acc.1 ++ [(source, t, rel)], acc.2)

/-- The collection pass: returns (all_connections, inheritance_groups).
Classes whose name is not in class_name_to_info are skipped. -/
def collectConns (info : List (Option String × Rect))
    (classes : List (Option String × List RawConn)) :
    List (Option String × String × String) × List (String × List (Option String)) :=
  classes.foldl
    (fun acc cls =>
      match dictGet info cls.1 with
      | none => acc
      | some _ => cls.2.foldl (fun a c => collectOne info a cls.1 c) acc)
    ([], [])

/-- The generalization pass over the inheritance buckets: a bucket with at
least two children is drawn as one tree and its sources marked processed; a
single-child bucket is appended to all_connections as an ordinary
inheritance connection.  The info lookups cannot fail for bucketed names
(the collection pass only buckets names present in info); a failed lookup
is skipped to keep the function total. -/
def groupPass (info : List (Option String × Rect))
    (regular : List (Option String × String × String))
    (groups : List (String × List (Option String))) :
    List DrawCmd × List (Option String × String × String) × List (Option String) :=
  groups.foldl
    (fun acc g =>
      match g.2 with
      | [] => acc
      | [s] => (acc.1, acc.2.1 ++ [(s, g.1, "inheritance")], acc.2.2)
      | _ =>
        match dictGet info (some g.1) with
        | none => acc
        | some tr =>
          let parent := (tr.x + tr.w.fdiv 2, tr.y)
          let childPts := g.2.filterMap
            (fun s => (dictGet info s).map (fun r => (r.x + r.w.fdiv 2, r.y + r.h)))
          (acc.1 ++ draw_proper_generalization parent childPts, acc.2.1, acc.2.2 ++ g.2))
    ([], regular, [])

/-- The final pass over all_connections: an inheritance connection whose
source was processed by a generalization tree is skipped (source comment:
already drawn as part of generalization); the rest are drawn between the
best connection points of the two boxes. -/
def residualPass (info : List (Option String × Rect))
    (processed : List (Option String))
    (conns : List (Option String × String × String)) : List DrawCmd :=
  conns.foldl
    (fun acc pc =>
      if pc.2.2 = "inheritance" ∧ pc.1 ∈ processed then acc
      else
        match dictGet info pc.1, dictGet info (some pc.2.1) with
        | some sr, some tr =>
          let tcx := tr.x + tr.w.fdiv 2
          let tcy := tr.y + tr.h.fdiv 2
          let scx := sr.x + sr.w.fdiv 2
          let scy := sr.y + sr.h.fdiv 2
          let sp := getBestConnectionPoint sr.x sr.y sr.w sr.h tcx tcy
          let ep := getBestConnectionPoint tr.x tr.y tr.w tr.h scx scy
          acc ++ drawConnection sp.x sp.y ep.x ep.y pc.2.2
        | _, _ => acc)
    []

/-- The whole connection-drawing pass shared by both implementations. -/
def drawConnectionsModel (info : List (Option String × Rect))
    (classes : List (Option String × List RawConn)) : List DrawCmd :=
  let col := collectConns info classes
  let gp := groupPass info col.1 col.2
  gp.1 ++ residualPass info gp.2.2 gp.2.1

/-! ## diagramDraw.note and its collision state (lines 522-674)

The module-global _existing_notes list becomes an explicit state argument
threaded through; clear_notes corresponds to starting from the empty
list. -/

structure NoteRect where
  x : Int
  y : Int
  w : Int
  h : Int
deriving DecidableEq

/-- clear_notes (lines 525-528): the reset state. -/
def clear_notes : List NoteRect := []

/-- Note text measurement (note lines 560-582): per line, bbox width/height
for non-blank lines and (0, font_size) for blank ones; note size adds 8px
padding on each side. -/
def noteDims (noteText : String) (font : Font) (font_size : Int) : Int × Int :=
  let measures := (splitLines noteText).map
    (fun l => if isBlank l then ((0 : Int), font_size)
              else ((font.lineWidth l : Int), (font.lineHeight l : Int)))
  let maxw := measures.foldl (fun a m => max a m.1) 0
  let toth := measures.foldl (fun a m => a + m.2) 0
  (maxw + 16, toth + 16)

/-- note.check_collision (lines 584-595): with avoid_collisions False every
check passes vacuously; otherwise rectangle overlap against each recorded
note. -/
def check_collision (avoid : Bool) (existing : List NoteRect) (x y w h : Int) : Bool :=
  if avoid = false then false
  else existing.any
    (fun e => if x < e.x + e.w ∧ x + w > e.x ∧ y < e.y + e.h ∧ y + h > e.y
              then true else false)

/-- The candidate-side order (note lines 599-609): auto tries
right/left/bottom/top; otherwise the requested side first followed by the
four standard sides, duplicates removed keeping first occurrences. -/
def positionsToTry (note_position : String) : List String :=
  if note_position = "auto" then ["right", "left", "bottom", "top"]
  else ([note_position, "right", "left", "bottom", "top"]).foldl
    (fun acc s => if s ∈ acc then acc else acc ++ [s]) []

/-- The candidate position adjacent to the class box on one side
(note lines 611-626); an unrecognized side is skipped. -/
def candidatePos (side : String) (cx cy cw ch nw nh offset : Int) : Option (Int × Int) :=
  if side = "right" then some (cx + cw + offset, cy + (ch - nh).fdiv 2)
  else if side = "left" then some (cx - offset - nw, cy + (ch - nh).fdiv 2)
  else if side = "top" then some (cx + (cw - nw).fdiv 2, cy - offset - nh)
  else if side = "bottom" then some (cx + (cw - nw).fdiv 2, cy + ch + offset)
  else none

/-- note.find_best_position (lines 597-647): first in-bounds candidate side
without a collision, retrying each colliding side with the five vertical
jitter offsets; unconditional right-side fallback when everything fails. -/
def find_best_position (imgW imgH : Int) (avoid : Bool) (existing : List NoteRect)
    (classX classY classW classH nw nh offset : Int) (note_position : String) :
    Int × Int × String :=
  match (positionsToTry note_position).findSome?
      (fun pos =>
        match candidatePos pos classX classY classW classH nw nh offset with
        | none => none
        | some (tx, ty) =>
          if tx ≥ 0 ∧ ty ≥ 0 ∧ tx + nw ≤ imgW ∧ ty + nh ≤ imgH then
            if check_collision avoid existing tx ty nw nh = false then some (tx, ty, pos)
            else ([0, 20, -20, 40, -40] : List Int).findSome?
              (fun yoff =>
                let ay := ty + yoff
                if ay ≥ 0 ∧ ay + nh ≤ imgH ∧
                    check_collision avoid existing tx ay nw nh = false
                then some (tx, ay, pos) else none)
          else none) with
  | some r => r
  | none => (classX + classW + offset, classY + (classH - nh).fdiv 2, "right")

/-- diagramDraw.note (lines 530-674): measure the note, find the best
position, record the resulting rectangle in the placed-note state when
avoid_collisions is set, and return it.  The painting of the note
background, text and dashed connector is abstracted away; the returned
rectangle and the state are the observable outputs. -/
def note (imgW imgH : Int) (noteText : String) (classPos classSize : Int × Int)
    (font : Font) (font_size : Int) (note_position : String) (offset : Int)
    (avoid_collisions : Bool) (existing : List NoteRect) : NoteRect × List NoteRect :=
  let dims := noteDims noteText font font_size
  let best := find_best_position imgW imgH avoid_collisions existing
    classPos.1 classPos.2 classSize.1 classSize.2 dims.1 dims.2 offset note_position
  let r : NoteRect := ⟨best.1, best.2.1, dims.1, dims.2⟩
  (r, if avoid_collisions then existing ++ [r] else existing)

/-! ## Position clamping (claim C5) -/

/-- app.generate_full_diagram's per-axis clamp (app.py lines 148-149):
max(0, min(v, canvas - box)). -/
def clampCoord (v canvas box : Int) : Int :=
  max 0 (min v (canvas - box))

/-- api.generate_simple_diagram's per-axis clamp (api/index.py lines
176-177): max(20, min(v, canvas - box - 20)). -/
def clampCoordApi (v canvas box : Int) : Int :=
  max 20 (min v (canvas - box - 20))

/-! ## Request data model shared by both services

Option models an absent (or JSON-null) key of the duck-typed dict. -/

structure AttrData where
  name : Option String
  type : Option String
  visibility : Option String
deriving DecidableEq

structure OpData where
  name : Option String
  returnType : Option String
  visibility : Option String
  parameters : List (Option String × Option String)
deriving DecidableEq

structure NoteData where
  text : Option String
  ntype : Option String
deriving DecidableEq

structure ClassData where
  id : Option String
  name : Option String
  attributes : List AttrData
  operations : List OpData
  connections : List RawConn
  notes : List NoteData
deriving DecidableEq

structure Styling where
  image_width : Option Int
  image_height : Option Int
deriving DecidableEq

/-- get_visibility_symbol (app.py lines 78-85, api/index.py lines 43-50). -/
def get_visibility_symbol (v : String) : String :=
  if v = "public" then "+"
  else if v = "private" then "-"
  else if v = "protected" then "#"
  else "+"

/-! ## app.py: UMLDiagramService (src/src/app.py) -/

/-- One formatted attribute line (app.create_class_box lines 43-46). -/
def formatAttr (a : AttrData) : String :=
  get_visibility_symbol (a.visibility.getD "private")
    ++ a.name.getD "" ++ ": " ++ a.type.getD ""

/-- One formatted operation line (app.create_class_box lines 50-60). -/
def formatOp (o : OpData) : String :=
  let sym := get_visibility_symbol (o.visibility.getD "public")
  if o.parameters = [] then sym ++ o.name.getD "" ++ "(): " ++ o.returnType.getD "void"
  else sym ++ o.name.getD "" ++ "("
    ++ joinSep ", " (o.parameters.map (fun p => p.1.getD "" ++ ": " ++ p.2.getD ""))
    ++ "): " ++ o.returnType.getD "void"

/-- app.UMLDiagramService.create_class_box (lines 37-76): a missing name is
replaced by the default and the formatted texts are merged into one box. -/
def create_class_box (cd : ClassData) (font : Font) : MergedBox :=
  let class_name := cd.name.getD "UnnamedClass"
  let attributes_text := joinSep "\n" (cd.attributes.map formatAttr)
  let operations_text := joinSep "\n" (cd.operations.map formatOp)
  mergeBoxes class_name attributes_text operations_text font

/-- Python exceptions that escape the embedded fragments. -/
inductive PyErr
  | keyError (field : String)
deriving DecidableEq

structure Diagram where
  width : Int
  height : Int
  boxes : List (String × Int × Int × MergedBox)
  noteRects : List NoteRect
  conns : List DrawCmd
deriving DecidableEq

/-- The single-column layout pass of app.generate_full_diagram (lines
124-169): fixed start (80, 80), 350px row height, per-axis clamp, and the
per-class note placements threaded through the note state (which starts
from clear_notes). -/
def layoutPass (classes : List ClassData) (W H : Int) (font : Font) :
    List (String × Int × Int × MergedBox) × List (String × (Int × Int))
      × List (String × MergedBox) × List NoteRect :=
  classes.enum.foldl
    (fun st ic =>
      let i := ic.1
      let cd := ic.2
      let class_id := cd.id.getD (toString i)
      let box := create_class_box cd font
      let x := clampCoord 80 W (box.width : Int)
      let y := clampCoord (80 + (i : Int) * 350) H (box.height : Int)
      let noteSt := cd.notes.foldl
        (fun ns nd =>
          let t := stripStr (nd.text.getD "")
          if t = "" then ns
          else (note W H t (x, y) ((box.width : Int), (box.height : Int))
                  font 10 "right" 20 true ns).2)
        st.2.2.2
      (st.1 ++ [(class_id, x, y, box)],
       dictInsert st.2.1 class_id (x, y),
       dictInsert st.2.2.1 class_id box,
       noteSt))
    ([], [], [], clear_notes)

/-- app.UMLDiagramService._draw_connections (lines 188-315).  The dict
comprehension on line 193 and the raw cls['id'] / cls['name'] accesses on
lines 201-202 raise KeyError on the first class record missing either key
(key before value, class order); after that vetting, build
class_name_to_info for classes whose id has a recorded position and box,
then run the shared grouping/drawing pass. -/
def app_draw_connections (classes : List ClassData)
    (dictPos : List (String × (Int × Int))) (dictBox : List (String × MergedBox)) :
    Except PyErr (List DrawCmd) :=
  match classes.findSome?
      (fun c => if c.name.isNone then some "name"
                else if c.id.isNone then some "id" else none) with
  | some f => Except.error (PyErr.keyError f)
  | none =>
    let info := classes.foldl
      (fun acc c =>
        match c.id with
        | none => acc
        | some cid =>
          match dictGet dictPos cid, dictGet dictBox cid with
          | some p, some b =>
            dictInsert acc c.name ⟨p.1, p.2, (b.width : Int), (b.height : Int)⟩
          | _, _ => acc)
      []
    Except.ok (drawConnectionsModel info (classes.map (fun c => (c.name, c.connections))))

/-- Assembling app.generate_full_diagram's result from the connection pass:
an escaping exception propagates, otherwise the finished canvas. -/
def finishDiagram (W H : Int) (boxes : List (String × Int × Int × MergedBox))
    (noteRects : List NoteRect) (conns : Except PyErr (List DrawCmd)) :
    Except PyErr (Option Diagram) :=
  match conns with
  | Except.error e => Except.error e
  | Except.ok cs => Except.ok (some ⟨W, H, boxes, noteRects, cs⟩)

/-- app.UMLDiagramService.generate_full_diagram (lines 102-174): an empty
class list returns None before any layout work; otherwise single-column
layout then the connection pass. -/
def generate_full_diagram (classes : List ClassData) (styling : Option Styling)
    (font : Font) : Except PyErr (Option Diagram) :=
  if classes = [] then Except.ok none
  else
    let W : Int := (styling.bind Styling.image_width).getD 1200
    let H : Int := (styling.bind Styling.image_height).getD 800
    let lp := layoutPass classes W H font
    finishDiagram W H lp.1 lp.2.2.2 (app_draw_connections classes lp.2.1 lp.2.2.1)

/-- The HTTP-visible outcomes of the /api/generate-diagram route. -/
inductive RouteResult
  | badRequest (msg : String)
  | serverError (msg : String)
  | okImage (d : Diagram)
deriving DecidableEq

/-- Modelled from the spec: the spec's EmptyInputError names the signal the
code emits for a missing or empty class list — the route's early HTTP 400
response before any generation work (app.py lines 366-367). -/
def EmptyInputError : RouteResult :=
  RouteResult.badRequest "No classes provided"

/-- The /api/generate-diagram route of app.py (lines 358-394): default the
missing classes key to [], reject an empty list with the 400 response
before calling the generator, map an escaping exception to a 500 with
str(e), a None diagram to the failure 500, and success to the image. -/
def generate_diagram_route (payload : Option (List ClassData))
    (styling : Option Styling) (font : Font) : RouteResult :=
  let classes := payload.getD []
  if classes = [] then RouteResult.badRequest "No classes provided"
  else
    match generate_full_diagram classes styling font with
    | Except.error (PyErr.keyError f) => RouteResult.serverError f
    | Except.ok none => RouteResult.serverError "Failed to generate diagram"
    | Except.ok (some d) => RouteResult.okImage d

/-! ## api/index.py: UMLDiagramService.generate_simple_diagram (lines 72-212) -/

/-- One formatted api attribute line (api/index.py lines 107-113): dropped
when the attribute name is empty. -/
def apiAttrLine (a : AttrData) : Option String :=
  let nm := a.name.getD ""
  if nm = "" then none
  else some (get_visibility_symbol (a.visibility.getD "private")
    ++ nm ++ ": " ++ a.type.getD "")

/-- One formatted api operation line (api/index.py lines 116-131): dropped
when the operation name is empty. -/
def apiOpLine (o : OpData) : Option String :=
  let nm := o.name.getD ""
  let sym := get_visibility_symbol (o.visibility.getD "public")
  let txt :=
    if o.parameters = [] then sym ++ nm ++ "(): " ++ o.returnType.getD "void"
    else sym ++ nm ++ "("
      ++ joinSep ", " (o.parameters.map (fun p => p.1.getD "" ++ ": " ++ p.2.getD ""))
      ++ "): " ++ o.returnType.getD "void"
  if nm = "" then none else some txt

structure ApiDiagram where
  width : Int
  height : Int
  boxes : List (String × String × Int × Int × MergedBox)
  conns : List DrawCmd
deriving DecidableEq

/-- api._draw_connections_with_robust_modules builds class_name_to_info
from class_data.get('id') (no default: a class without id is skipped) and
class_data.get('name') (possibly None), then runs the shared pass. -/
def api_draw_connections (classes : List ClassData)
    (dictPos : List (String × (Int × Int))) (dictBox : List (String × MergedBox)) :
    List DrawCmd :=
  let info := classes.foldl
    (fun acc c =>
      match c.id with
      | none => acc
      | some cid =>
        match dictGet dictPos cid, dictGet dictBox cid with
        | some p, some b =>
          dictInsert acc c.name ⟨p.1, p.2, (b.width : Int), (b.height : Int)⟩
        | _, _ => acc)
    []
  drawConnectionsModel info (classes.map (fun c => (c.name, c.connections)))

/-- api.generate_simple_diagram (lines 72-212): None for an empty class
list; otherwise build every box (first pass, default id class_i and default
name Class{i+1}), lay them out as a vertically centered single column with
60px spacing and the 20px-margin clamp, and run the connection pass.  The
box record keeps the class_name local the source computes and renders. -/
def generate_simple_diagram (classes : List ClassData) (styling : Option Styling)
    (font : Font) : Option ApiDiagram :=
  if classes = [] then none
  else
    let W : Int := (styling.bind Styling.image_width).getD 1400
    let H : Int := (styling.bind Styling.image_height).getD 1000
    let temp := classes.enum.map
      (fun ic =>
        let i := ic.1
        let cd := ic.2
        let cid := cd.id.getD ("class_" ++ toString i)
        let cname := cd.name.getD ("Class" ++ toString (i + 1))
        let attrs := joinSep "\n" (cd.attributes.filterMap apiAttrLine)
        let ops := joinSep "\n" (cd.operations.filterMap apiOpLine)
        (cid, cname, mergeBoxes cname attrs ops font))
    let totalH : Int := temp.foldl (fun a t => a + (t.2.2.height : Int)) 0
    let totalLayout := totalH + 60 * ((classes.length : Int) - 1)
    let start_y := max 40 ((H - totalLayout).fdiv 2)
    let step := temp.foldl
      (fun (st : List (String × String × Int × Int × MergedBox)
              × List (String × (Int × Int)) × List (String × MergedBox) × Int) t =>
        let bw := (t.2.2.width : Int)
        let bh := (t.2.2.height : Int)
        let pos_x := clampCoordApi ((W - bw).fdiv 2) W bw
        let pos_y := clampCoordApi st.2.2.2 H bh
        (st.1 ++ [(t.1, t.2.1, pos_x, pos_y, t.2.2)],
         dictInsert st.2.1 t.1 (pos_x, pos_y),
         dictInsert st.2.2.1 t.1 t.2.2,
         st.2.2.2 + bh + 60))
      ([], [], [], start_y)
    some ⟨W, H, step.1, api_draw_connections classes step.2.1 step.2.2.1⟩

/-! ## Concrete inputs used by witnesses and counterexamples -/

def fontSix : Font :=
  ⟨fun s => 6 * s.length, fun _ => 12⟩

/-- The C2 failing input: A and B inherit from P (a two-child bucket) and A
additionally inherits from Q (a one-child bucket). -/
def c2info : List (Option String × Rect) :=
  [(some "A", ⟨0, 200, 100, 50⟩), (some "B", ⟨300, 200, 100, 50⟩),
   (some "P", ⟨0, 0, 100, 50⟩), (some "Q", ⟨300, 0, 100, 50⟩)]

def c2classes : List (Option String × List RawConn) :=
  [(some "A", [⟨some "P", some "inheritance"⟩, ⟨some "Q", some "inheritance"⟩]),
   (some "B", [⟨some "P", some "inheritance"⟩]),
   (some "P", []), (some "Q", [])]

/-- A class record with an id but no name field. -/
def namelessClass : ClassData :=
  ⟨some "c1", none, [], [], [], []⟩

/-- A second nameless record for the amended-claim witness. -/
def namelessClassW : ClassData :=
  ⟨some "c2", none, [], [], [], []⟩

end UMLGen

namespace UMLGen

/-! ## Shared helper lemmas -/

theorem nameCmds_no_hline (font : Font) (w : Nat) (ls : List String) (y : Nat) :
    (nameCmds font w ls y).filter BoxCmd.isHline = [] := by
  induction ls generalizing y with
  | nil => rfl
  | cons l rest ih => simp [nameCmds, List.filter, BoxCmd.isHline, ih]

theorem leftCmds_no_hline (font : Font) (ls : List String) (y : Nat) :
    (leftCmds font ls y).filter BoxCmd.isHline = [] := by
  induction ls generalizing y with
  | nil => rfl
  | cons l rest ih =>
    by_cases hb : isBlank l = true
    · simp [leftCmds, hb, ih]
    · simp [leftCmds, hb, List.filter, BoxCmd.isHline, ih]

theorem calculateBoxWidth_ge_20 (text : String) (font : Font) :
    20 ≤ calculateBoxWidth text font := by
  unfold calculateBoxWidth MAX_BOX_WIDTH PADDING_X
  omega

theorem calculateBoxWidth_empty (font : Font) (hfont : font.lineWidth "" = 0) :
    calculateBoxWidth "" font = 20 := by
  unfold calculateBoxWidth maxLineWidth splitLines splitCharLines PADDING_X MAX_BOX_WIDTH
  simp [hfont]

theorem len2_eq_zero_iff (a b : Int) : len2 a b = 0 ↔ a = 0 ∧ b = 0 := by
  unfold len2
  constructor
  · intro h
    constructor
    · have ha : a * a = 0 := by nlinarith [mul_self_nonneg a, mul_self_nonneg b]
      exact mul_self_eq_zero.mp ha
    · have hb : b * b = 0 := by nlinarith [mul_self_nonneg a, mul_self_nonneg b]
      exact mul_self_eq_zero.mp hb
  · rintro ⟨rfl, rfl⟩
    ring

/-! ## Theorems for the claims -/

/-- C1: _get_best_connection_point attaches to the right/left edge center
line offset outward by 15px when |dx| > |dy| (right for dx > 0, left for
dx <= 0), and otherwise — including |dx| = |dy| — to the bottom/top edge
center line (bottom for dy > 0, top for dy <= 0). -/
theorem getBestConnectionPoint_spec (x y w h tx ty : Int) :
    (|tx - (x + w.fdiv 2)| > |ty - (y + h.fdiv 2)| →
      (tx - (x + w.fdiv 2) > 0 →
        getBestConnectionPoint x y w h tx ty = ⟨x + w + 15, y + h.fdiv 2, Side.right⟩) ∧
      (tx - (x + w.fdiv 2) ≤ 0 →
        getBestConnectionPoint x y w h tx ty = ⟨x - 15, y + h.fdiv 2, Side.left⟩)) ∧
    (|tx - (x + w.fdiv 2)| ≤ |ty - (y + h.fdiv 2)| →
      (ty - (y + h.fdiv 2) > 0 →
        getBestConnectionPoint x y w h tx ty = ⟨x + w.fdiv 2, y + h + 15, Side.bottom⟩) ∧
      (ty - (y + h.fdiv 2) ≤ 0 →
        getBestConnectionPoint x y w h tx ty = ⟨x + w.fdiv 2, y - 15, Side.top⟩)) := by
  unfold getBestConnectionPoint arrowOffset
  constructor
  · intro h1
    constructor
    · intro h2
      rw [if_pos h1, if_pos h2]
    · intro h2
      rw [if_pos h1, if_neg (not_lt.mpr h2)]
  · intro h1
    constructor
    · intro h2
      rw [if_neg (not_lt.mpr h1), if_pos h2]
    · intro h2
      rw [if_neg (not_lt.mpr h1), if_neg (not_lt.mpr h2)]

/-- Witness for C1: box (0,0,10,10), target (100,5): dx = 95 dominates, so
the attachment point is the right side (25, 5). -/
theorem getBestConnectionPoint_spec_witness :
    getBestConnectionPoint 0 0 10 10 100 5 = ⟨25, 5, Side.right⟩ :=
  ((getBestConnectionPoint_spec 0 0 10 10 100 5).1 (by decide)).1 (by decide)

/-- C4: calculateBoxWidth is capped at MAX_BOX_WIDTH = 250; below the cap
it returns max line width plus twice the horizontal padding, at or above
the cap it returns exactly MAX_BOX_WIDTH. -/
theorem calculateBoxWidth_spec (text : String) (font : Font) :
    calculateBoxWidth text font ≤ MAX_BOX_WIDTH ∧
    (maxLineWidth text font + 2 * PADDING_X ≤ MAX_BOX_WIDTH →
      calculateBoxWidth text font = maxLineWidth text font + 2 * PADDING_X) ∧
    (MAX_BOX_WIDTH ≤ maxLineWidth text font + 2 * PADDING_X →
      calculateBoxWidth text font = MAX_BOX_WIDTH) := by
  unfold calculateBoxWidth
  refine ⟨min_le_right _ _, ?_, ?_⟩
  · intro hle
    rw [Nat.mul_comm] at hle
    rw [min_eq_left hle, Nat.mul_comm]
  · intro hge
    rw [Nat.mul_comm] at hge
    rw [min_eq_right hge]

/-- Witness for C4: a 200-character single-line name measures 1200px wide
under a 6px-per-character font, and the returned width is exactly 250. -/
theorem calculateBoxWidth_spec_witness :
    calculateBoxWidth (String.mk (List.replicate 200 'a')) fontSix = 250 :=
  (calculateBoxWidth_spec (String.mk (List.replicate 200 'a')) fontSix).2.2 (by decide)

/-- C3: mergeBoxes takes the maximum of the three sections' widths as the
box width and the sum of the three sections' heights as the box height,
where an empty attributes or operations section contributes exactly the
20px minimum height; the box always contains exactly two separator lines
and its width and height are positive.  The width clause assumes the font
measures the empty string at width 0 (true of PIL getbbox), since for an
empty section the source substitutes the name section's width. -/
theorem mergeBoxes_spec (name attrs ops : String) (font : Font)
    (hfont : font.lineWidth "" = 0) :
    (mergeBoxes name attrs ops font).width
      = max (calculateBoxWidth name font)
          (max (calculateBoxWidth attrs font) (calculateBoxWidth ops font)) ∧
    (mergeBoxes name attrs ops font).height
      = calculateBoxHeight name font
          + (if attrs = "" then 20 else calculateBoxHeight attrs font)
          + (if ops = "" then 20 else calculateBoxHeight ops font) ∧
    ((mergeBoxes name attrs ops font).cmds.filter BoxCmd.isHline).length = 2 ∧
    0 < (mergeBoxes name attrs ops font).width ∧
    0 < (mergeBoxes name attrs ops font).height := by
  have hwdef : (mergeBoxes name attrs ops font).width
      = max (calculateBoxWidth name font)
          (max (if attrs = "" then calculateBoxWidth name font
                else calculateBoxWidth attrs font)
               (if ops = "" then calculateBoxWidth name font
                else calculateBoxWidth ops font)) := rfl
  have h20 := calculateBoxWidth_ge_20 name font
  refine ⟨?_, rfl, ?_, ?_, ?_⟩
  · rw [hwdef]
    have h20a := calculateBoxWidth_ge_20 attrs font
    have h20o := calculateBoxWidth_ge_20 ops font
    by_cases ha : attrs = "" <;> by_cases ho : ops = ""
    · rw [if_pos ha, if_pos ho, ha, ho]
      simp only [calculateBoxWidth_empty font hfont]
      omega
    · rw [if_pos ha, if_neg ho, ha]
      simp only [calculateBoxWidth_empty font hfont]
      omega
    · rw [if_neg ha, if_pos ho, ho]
      simp only [calculateBoxWidth_empty font hfont]
      omega
    · rw [if_neg ha, if_neg ho]
  · show (List.filter BoxCmd.isHline
      ([BoxCmd.border _ _]
        ++ nameCmds font _ (splitLines name) PADDING_Y
        ++ [BoxCmd.hlineAt _ _]
        ++ (if attrs = "" then []
            else leftCmds font (splitLines attrs) _)
        ++ [BoxCmd.hlineAt _ _]
        ++ (if ops = "" then []
            else leftCmds font (splitLines ops) _))).length = 2
    by_cases ha : attrs = "" <;> by_cases ho : ops = "" <;>
      simp [ha, ho, List.filter_append, List.filter, BoxCmd.isHline,
        nameCmds_no_hline, leftCmds_no_hline]
  · calc 0 < 20 := by omega
      _ ≤ calculateBoxWidth name font := h20
      _ ≤ (mergeBoxes name attrs ops font).width := by
          rw [hwdef]; exact Nat.le_max_left _ _
  · have hh : (mergeBoxes name attrs ops font).height
        = calculateBoxHeight name font
            + (if attrs = "" then 20 else calculateBoxHeight attrs font)
            + (if ops = "" then 20 else calculateBoxHeight ops font) := rfl
    have hn : 0 < calculateBoxHeight name font := by
      unfold calculateBoxHeight PADDING_Y
      omega
    omega

/-- Witness for C3: the class named Empty with no attributes and no
operations still yields a three-compartment box with two separator lines
and positive width and height. -/
theorem mergeBoxes_spec_witness :
    (mergeBoxes "Empty" "" "" fontSix).width
      = max (calculateBoxWidth "Empty" fontSix)
          (max (calculateBoxWidth "" fontSix) (calculateBoxWidth "" fontSix)) ∧
    (mergeBoxes "Empty" "" "" fontSix).height
      = calculateBoxHeight "Empty" fontSix
          + (if ("" : String) = "" then 20 else calculateBoxHeight "" fontSix)
          + (if ("" : String) = "" then 20 else calculateBoxHeight "" fontSix) ∧
    ((mergeBoxes "Empty" "" "" fontSix).cmds.filter BoxCmd.isHline).length = 2 ∧
    0 < (mergeBoxes "Empty" "" "" fontSix).width ∧
    0 < (mergeBoxes "Empty" "" "" fontSix).height :=
  mergeBoxes_spec "Empty" "" "" fontSix (by decide)

/-- C6: drawConnection draws a dashed (fixed 5px dash / 3px gap) line
exactly for realization and dependency and a solid line otherwise, and puts
at the end point an arrow head for association and dependency, an open
diamond for aggregation, a filled diamond for composition, an open triangle
for inheritance and realization, and no glyph for inheritance_line —
stated for a non-degenerate segment (the degenerate case is claim C9). -/
theorem drawConnection_spec (sx sy ex ey : Int) (ctype : String)
    (h : sx ≠ ex ∨ sy ≠ ey) :
    (ctype = "association" → drawConnection sx sy ex ey ctype
      = [DrawCmd.solidLine sx sy ex ey, DrawCmd.glyphAt Glyph.arrowHead ex ey]) ∧
    (ctype = "aggregation" → drawConnection sx sy ex ey ctype
      = [DrawCmd.solidLine sx sy ex ey, DrawCmd.glyphAt (Glyph.diamond false) ex ey]) ∧
    (ctype = "composition" → drawConnection sx sy ex ey ctype
      = [DrawCmd.solidLine sx sy ex ey, DrawCmd.glyphAt (Glyph.diamond true) ex ey]) ∧
    (ctype = "inheritance" → drawConnection sx sy ex ey ctype
      = [DrawCmd.solidLine sx sy ex ey, DrawCmd.glyphAt (Glyph.triangle false) ex ey]) ∧
    (ctype = "realization" → drawConnection sx sy ex ey ctype
      = [DrawCmd.dashedLine 5 3 sx sy ex ey, DrawCmd.glyphAt (Glyph.triangle false) ex ey]) ∧
    (ctype = "dependency" → drawConnection sx sy ex ey ctype
      = [DrawCmd.dashedLine 5 3 sx sy ex ey, DrawCmd.glyphAt Glyph.arrowHead ex ey]) ∧
    (ctype = "inheritance_line" → drawConnection sx sy ex ey ctype
      = [DrawCmd.solidLine sx sy ex ey]) ∧
    ((drawConnection sx sy ex ey ctype).filter DrawCmd.isDashed ≠ []
      ↔ (ctype = "realization" ∨ ctype = "dependency")) := by
  have hlen : ¬len2 (ex - sx) (ey - sy) = 0 := by
    rw [len2_eq_zero_iff]
    rintro ⟨h1, h2⟩
    rcases h with h3 | h3
    · exact h3 (by omega)
    · exact h3 (by omega)
  have hglyph : ∀ t, (connectionGlyph sx sy ex ey t).filter DrawCmd.isDashed = [] := by
    intro t
    unfold connectionGlyph draw_arrow_head draw_diamond draw_triangle
    split_ifs <;> simp [DrawCmd.isDashed, List.filter]
  refine ⟨?_, ?_, ?_, ?_, ?_, ?_, ?_, ?_⟩
  · rintro rfl
    simp [drawConnection, connectionLine, connectionGlyph, draw_arrow_head, hlen]
  · rintro rfl
    simp [drawConnection, connectionLine, connectionGlyph, draw_diamond, hlen]
  · rintro rfl
    simp [drawConnection, connectionLine, connectionGlyph, draw_diamond, hlen]
  · rintro rfl
    simp [drawConnection, connectionLine, connectionGlyph, draw_triangle, hlen]
  · rintro rfl
    simp [drawConnection, connectionLine, connectionGlyph, draw_dashed_line,
      draw_triangle, hlen]
  · rintro rfl
    simp [drawConnection, connectionLine, connectionGlyph, draw_dashed_line,
      draw_arrow_head, hlen]
  · rintro rfl
    simp [drawConnection, connectionLine, connectionGlyph, hlen]
  · by_cases hc : ctype = "realization" ∨ ctype = "dependency"
    · simp only [drawConnection, connectionLine, if_pos hc, draw_dashed_line,
        if_neg hlen, List.filter_append, hglyph, List.append_nil, List.filter,
        DrawCmd.isDashed]
      simpa using hc
    · simp only [drawConnection, connectionLine, if_neg hc, List.filter_append,
        hglyph, List.append_nil, List.filter, DrawCmd.isDashed]
      simpa using hc

/-- Witness for C6: a composition connector along (0,0)-(10,0) draws a
solid line and a filled diamond at the end point. -/
theorem drawConnection_spec_witness :
    drawConnection 0 0 10 0 "composition"
      = [DrawCmd.solidLine 0 0 10 0, DrawCmd.glyphAt (Glyph.diamond true) 10 0] :=
  (drawConnection_spec 0 0 10 0 "composition" (Or.inl (by decide))).2.2.1 rfl

/-- C9: for a zero-length direction vector (coincident start and end) every
guarded drawing routine — arrow head, diamond, triangle, dashed line — is a
total no-op that draws nothing and raises nothing; the division by the
vector length sits in the branch the zero guard never reaches. -/
theorem degenerate_glyphs_noop (x y : Int) :
    draw_arrow_head x y x y = [] ∧
    draw_diamond x y x y false = [] ∧
    draw_diamond x y x y true = [] ∧
    draw_triangle x y x y false = [] ∧
    draw_triangle x y x y true = [] ∧
    draw_dashed_line x y x y = [] := by
  unfold draw_arrow_head draw_diamond draw_triangle draw_dashed_line len2
  simp

/-- C10: every note call with avoid_collisions=True appends exactly the
returned rectangle to the placed-note state — in every case, including the
unconditional right-side fallback — while with avoid_collisions=False the
state is untouched and every collision check passes vacuously. -/
theorem note_state_spec (imgW imgH : Int) (txt : String) (cp cs : Int × Int)
    (font : Font) (fs : Int) (np : String) (off : Int) (existing : List NoteRect) :
    (note imgW imgH txt cp cs font fs np off true existing).2
      = existing ++ [(note imgW imgH txt cp cs font fs np off true existing).1] ∧
    (note imgW imgH txt cp cs font fs np off false existing).2 = existing ∧
    (∀ x y w h : Int, check_collision false existing x y w h = false) :=
  ⟨rfl, rfl, fun _ _ _ _ => rfl⟩

/-- C5 counterexample: on a 100px canvas with a 200px box the api clamp
max(20, min(v, canvas-box-20)) returns 20 — the box then spans [20, 220]
and extends 120px past the canvas, and the margin did not fall back to 0:
the claimed interval [margin, canvas-box-margin] is not met. -/
theorem clampCoordApi_counterexample :
    clampCoordApi 0 100 200 = 20 ∧
    ¬(clampCoordApi 0 100 200 + 200 ≤ 100) ∧
    clampCoordApi 0 100 200 ≠ 0 := by decide

/-- C5 amended: app.py clamps into [0, canvas-box] (margin 0) whenever the
box fits, and api/index.py clamps into [20, canvas-box-20] whenever the box
plus the two 20px margins fits; when the canvas is smaller the position
falls back to the lower bound (0 resp. 20) — the margin never falls back to
0 in api/index.py — and the box may extend past the canvas. -/
theorem clamp_amended_spec (v canvas box : Int) :
    (box ≤ canvas →
      0 ≤ clampCoord v canvas box ∧ clampCoord v canvas box + box ≤ canvas) ∧
    (canvas < box → clampCoord v canvas box = 0) ∧
    (box + 40 ≤ canvas →
      20 ≤ clampCoordApi v canvas box ∧ clampCoordApi v canvas box + box + 20 ≤ canvas) ∧
    (canvas < box + 40 → clampCoordApi v canvas box = 20) := by
  unfold clampCoord clampCoordApi
  refine ⟨fun h => ⟨?_, ?_⟩, fun h => ?_, fun h => ⟨?_, ?_⟩, fun h => ?_⟩ <;> omega

/-- Witness for C5's amended claim, at inputs exercising all four cases. -/
theorem clamp_amended_spec_witness :
    (0 ≤ clampCoord 500 1000 100 ∧ clampCoord 500 1000 100 + 100 ≤ 1000) ∧
    clampCoord 5 100 200 = 0 ∧
    (20 ≤ clampCoordApi 30 100 40 ∧ clampCoordApi 30 100 40 + 40 + 20 ≤ 100) ∧
    clampCoordApi 5 100 200 = 20 :=
  ⟨(clamp_amended_spec 500 1000 100).1 (by decide),
   (clamp_amended_spec 5 100 200).2.1 (by decide),
   (clamp_amended_spec 30 100 40).2.2.1 (by decide),
   (clamp_amended_spec 5 100 200).2.2.2 (by decide)⟩

/-- C7: a missing or empty class list is rejected by the route with the
empty-input signal (HTTP 400, the spec's EmptyInputError) before any
generation work, and both cores return their None failure value for an
empty list before any layout work — no partial canvas exists in either
outcome. -/
theorem emptyInput_spec (styling : Option Styling) (font : Font) :
    generate_diagram_route none styling font = EmptyInputError ∧
    generate_diagram_route (some []) styling font = EmptyInputError ∧
    generate_full_diagram [] styling font = Except.ok none ∧
    generate_simple_diagram [] styling font = none :=
  ⟨rfl, rfl, rfl, rfl⟩

/-- C2 (code bug evaluation): with A and B inheriting from P and A also
inheriting from Q, the collection pass buckets P with two children and Q
with one; Q's bucket is demoted into all_connections as an ordinary
inheritance connection, but the final drawn command list contains only P's
generalization tree (one triangle at P's top center plus two branches) and
no command at all for the A-to-Q edge: the skip guard drops the demoted
edge because A was processed by P's group, although that edge was never
drawn. -/
theorem inheritance_single_child_dropped :
    (collectConns c2info c2classes).2
      = [("P", [some "A", some "B"]), ("Q", [some "A"])] ∧
    (groupPass c2info (collectConns c2info c2classes).1
        (collectConns c2info c2classes).2).2.1
      = [(some "A", "Q", "inheritance")] ∧
    drawConnectionsModel c2info c2classes
      = [DrawCmd.solidLine 50 12 50 125, DrawCmd.solidLine 50 125 350 125,
         DrawCmd.solidLine 50 125 50 250, DrawCmd.solidLine 350 125 350 250,
         DrawCmd.genTriangle 50 0] := by
  refine ⟨rfl, rfl, rfl⟩

/-- app._draw_connections raises KeyError("name") for a leading class
record missing the name key, whatever the recorded positions and boxes. -/
theorem app_draw_connections_keyError (cd : ClassData) (rest : List ClassData)
    (dictPos : List (String × (Int × Int))) (dictBox : List (String × MergedBox))
    (h : cd.name = none) :
    app_draw_connections (cd :: rest) dictPos dictBox
      = Except.error (PyErr.keyError "name") := by
  unfold app_draw_connections
  rw [List.findSome?_cons]
  simp [h]

/-- C8 counterexample: a class record with an id but no name field is not
rejected — api.generate_simple_diagram succeeds and silently renders the
box under the substituted default name Class1, so no InvalidSpecError (nor
any error) surfaces for the malformed record. -/
theorem missing_name_masked_counterexample :
    (generate_simple_diagram [namelessClass] none fontSix).isSome = true ∧
    (generate_simple_diagram [namelessClass] none fontSix).map
        (fun d => d.boxes.map (fun b => b.2.1)) = some ["Class1"] :=
  ⟨rfl, rfl⟩

/-- C8 amended: a class record missing the name field is masked, not
surfaced as an InvalidSpecError: app.create_class_box substitutes the
default UnnamedClass and api.generate_simple_diagram completes successfully
with the default Class{i+1}; only app.py's connection pass — which runs
after the box layout — trips over the raw dict access and raises a KeyError
naming the offending name field, which the route reports as a generic
500. -/
theorem missing_name_amended (cd : ClassData) (rest : List ClassData)
    (styling : Option Styling) (font : Font) (h : cd.name = none) :
    generate_full_diagram (cd :: rest) styling font
      = Except.error (PyErr.keyError "name") ∧
    create_class_box cd font
      = mergeBoxes "UnnamedClass" (joinSep "\n" (cd.attributes.map formatAttr))
          (joinSep "\n" (cd.operations.map formatOp)) font ∧
    (generate_simple_diagram (cd :: rest) styling font).isSome = true := by
  refine ⟨?_, ?_, ?_⟩
  · unfold generate_full_diagram
    rw [if_neg (List.cons_ne_nil cd rest)]
    simp only [app_draw_connections_keyError cd rest _ _ h]
    rfl
  · unfold create_class_box
    rw [h]
    rfl
  · unfold generate_simple_diagram
    rw [if_neg (List.cons_ne_nil cd rest)]
    rfl

/-- Witness for C8's amended claim at a concrete nameless record. -/
theorem missing_name_amended_witness :
    generate_full_diagram [namelessClassW] none fontSix
      = Except.error (PyErr.keyError "name") ∧
    create_class_box namelessClassW fontSix
      = mergeBoxes "UnnamedClass"
          (joinSep "\n" (namelessClassW.attributes.map formatAttr))
          (joinSep "\n" (namelessClassW.operations.map formatOp)) fontSix ∧
    (generate_simple_diagram [namelessClassW] none fontSix).isSome = true :=
  missing_name_amended namelessClassW [] none fontSix rfl

end UMLGen
